import Mathlib

/-!
Verification of the agni-one data-service streaming core
(src/services/data-service/src/data_service.py) against its
natural-language specification.

The Python code is shallowly embedded: dictionaries become total
functions into Option (or association lists where emptiness of the
dictionary is observed), Python sets become Finset String, prices
(Python floats that are only carried through, never computed with)
become Rat, volumes and millisecond timestamps (Python ints) become
Int, and JSON serialisation of candle dictionaries is modelled by the
structured record itself (json.dumps is injective on distinct candle
records, which is all the development relies on).  WebSocket handles,
logging and Redis I/O plumbing carry no data relevant to the claims
and are elided; the Redis store itself is modelled explicitly.
-/

namespace AgniDataService

/-! ## Data model: candles and feed context (data_service.py lines 58-79) -/

/-- Extended per-candle fields extracted from the feed context
(marketFF or indexFF).  The source keeps these flat on MarketData and
OHLCCandle with None defaults; here they are grouped in one record.
market_level and option_greeks are opaque JSON dictionaries in the
source and are modelled as opaque strings. -/
structure FeedExtras where
  ltq : Option String
  market_level : Option String
  option_greeks : Option String
  atp : Option Rat
  vtt : Option String
  oi : Option Rat
  iv : Option Rat
  tbq : Option Rat
  tsq : Option Rat
deriving DecidableEq, Repr

/-- Feed extras with every field absent (all source defaults are None). -/
def FeedExtras.none_ : FeedExtras :=
  ⟨none, none, none, none, none, none, none, none, none⟩

/-- The OHLCCandle dataclass (lines 59-79).  Prices are modelled as Rat
(the source stores Python floats it never computes with), volume and
the ms start-timestamp as Int. -/
structure OHLCCandle where
  instrument_key : String
  interval : String
  open_ : Rat
  high : Rat
  low : Rat
  close : Rat
  volume : Int
  timestamp : Int
  candle_status : String
  extras : FeedExtras
deriving DecidableEq, Repr

/-! ## Subscription registry (tick filters), lines 1430-1484 -/

/-- The subscribers dictionary client_id -> (websocket, subscriptions).
The websocket handle carries no data used by any claim and is elided;
the Python set of instrument keys becomes a Finset String. -/
abbrev Subscribers : Type := String → Option (Finset String)

/-- Pointwise update of a client entry. -/
def Subscribers.set (m : Subscribers) (cid : String) (v : Option (Finset String)) :
    Subscribers :=
  fun k => if k = cid then v else m k

/-- DataService.update_subscriptions (lines 1452-1478): subscribe does
set.update (union), unsubscribe does set.difference_update (set
difference); unknown client or unknown action returns False and leaves
the registry unchanged. -/
def update_subscriptions (m : Subscribers) (client_id action : String)
    (instruments : List String) : Subscribers × Bool :=
  match m client_id with
  | none => (m, false)
  | some subscriptions =>
    if action = "subscribe" then
      (m.set client_id (some (subscriptions ∪ instruments.toFinset)), true)
    else if action = "unsubscribe" then
      (m.set client_id (some (subscriptions \ instruments.toFinset)), true)
    else
      (m, false)

/-- DataService.get_client_subscriptions (lines 1480-1484): a copy of
the client's set, or the empty set for an unknown client. -/
def get_client_subscriptions (m : Subscribers) (client_id : String) : Finset String :=
  match m client_id with
  | some s => s
  | none => ∅

/-! ## OHLC subscription registry, lines 1486-1551

The per-client OHLC filter dictionary instrument -> set of intervals is
modelled as an association list so that Python dictionary emptiness
tests translate directly. -/

/-- Per-client OHLC filter: instrument_key -> set of interval strings. -/
abbrev OhlcFilter : Type := List (String × Finset String)

/-- The ohlc_subscribers dictionary client_id -> per-client filter. -/
abbrev OhlcSubscribers : Type := String → Option OhlcFilter

/-- Pointwise update of a client's OHLC filter entry. -/
def OhlcSubscribers.set (m : OhlcSubscribers) (cid : String) (v : Option OhlcFilter) :
    OhlcSubscribers :=
  fun k => if k = cid then v else m k

/-- Membership test mirroring the Python `instrument_key in dict`. -/
def OhlcFilter.hasKey (f : OhlcFilter) (ik : String) : Bool :=
  f.any (fun p => p.1 = ik)

/-- Python `del dict[instrument_key]`. -/
def OhlcFilter.eraseKey (f : OhlcFilter) (ik : String) : OhlcFilter :=
  f.filter (fun p => ¬ p.1 = ik)

/-- DataService.unsubscribe_ohlc (lines 1512-1540).  Returns the new
registry together with (success, message).  With instruments = None the
whole client entry is deleted immediately, before the intervals
argument is ever consulted. -/
def unsubscribe_ohlc (m : OhlcSubscribers) (client_id : String)
    (instruments : Option (List String)) (intervals : Option (List String)) :
    OhlcSubscribers × Bool × String :=
  match m client_id with
  | none => (m, false, "No OHLC subscriptions found")
  | some filt =>
    match instruments with
    | none =>
      (m.set client_id none, true, "Unsubscribed from all OHLC")
    | some is =>
      let filt' : OhlcFilter := is.foldl (fun f ik =>
        if f.hasKey ik then
          match intervals with
          | none => f.eraseKey ik
          | some ivs =>
            -- difference_update on the interval set, then drop the
            -- instrument entry if no intervals are left
            let f2 := f.map (fun p => if p.1 = ik then (p.1, p.2 \ ivs.toFinset) else p)
            f2.filter (fun p => ¬ (p.1 = ik ∧ p.2 = ∅))
        else f) filt
      let m' : OhlcSubscribers :=
        if filt'.isEmpty then m.set client_id none
        else m.set client_id (some filt')
      (m', true, "Unsubscribed successfully")

/-! ## Upstream control plane: modes, token reload (lines 195-342, 458-514) -/

/-- The instrument_modes dictionary instrument_key -> mode string. -/
abbrev ModeMap : Type := String → Option String

/-- Python `modes[inst] = mode` on the mode dictionary. -/
def ModeMap.set (m : ModeMap) (inst mode : String) : ModeMap :=
  fun k => if k = inst then some mode else m k

/-- The DataService state touched by the upstream control operations:
the authoritative subscribed-instrument set and the per-instrument
mode map, plus the token list replaced by reload_tokens.  Streamer
objects themselves are external SDK handles; for control operations a
streamer slot is modelled as Option Bool: none for a None slot (failed
initialisation, line 341), some b for an active streamer whose control
call succeeds (b = true) or raises (b = false). -/
structure UpstreamState where
  access_tokens : List String
  subscribed_instruments : Finset String
  instrument_modes : ModeMap

/-- The list of valid modes (line 476). -/
def valid_modes : List String := ["full", "ltpc", "option_greeks", "full_d30"]

/-- DataService.change_instrument_mode (lines 458-514).  streamers is
the market_streamers vector; each active slot carries whether its
change_mode call succeeds.  Returns success and the updated state
(response message strings are elided). -/
def change_instrument_mode (streamers : List (Option Bool)) (st : UpstreamState)
    (instruments : List String) (mode : String) : Bool × UpstreamState :=
  let active_streamers := streamers.filterMap id
  if active_streamers.isEmpty then (false, st)
  else if instruments.isEmpty then (false, st)
  else if ¬ valid_modes.contains mode then (false, st)
  else if (instruments.filter (fun i => ¬ i ∈ st.subscribed_instruments)) ≠ [] then
    -- missing_instruments nonempty (line 481)
    (false, st)
  else
    let success_count := (active_streamers.filter id).length
    if success_count > 0 then
      (true, { st with
        instrument_modes :=
          instruments.foldl (fun m i => m.set i mode) st.instrument_modes })
    else (false, st)

/-- DataService.get_subscribed_instruments (lines 454-456): the sorted
list of the subscribed-instrument set. -/
def get_subscribed_instruments (st : UpstreamState) : List String :=
  st.subscribed_instruments.sort (· ≤ ·)

/-- DataService.start_market_data_stream (lines 252-341).  One entry of
initFails per api_client; true means the streamer construction raises
before the mode-initialisation loop (lines 262-318) so that slot's pass
over the instruments is skipped.  Each successful slot adds the
instruments to subscribed_instruments state once (line 257, done before
the loop) and resets every listed instrument's mode to "full"
(lines 320-322). -/
def start_market_data_stream (initFails : List Bool) (st : UpstreamState)
    (instruments : List String) : UpstreamState :=
  let st1 := { st with
    subscribed_instruments := st.subscribed_instruments ∪ instruments.toFinset }
  initFails.foldl (fun acc fails =>
    if fails then acc
    else { acc with
      instrument_modes :=
        instruments.foldl (fun m i => m.set i "full") acc.instrument_modes }) st1

/-- DataService.reload_tokens (lines 195-250).  Raises ValueError on an
empty token list (modelled as none).  Stops the old streamers, replaces
the token list, rebuilds one api client per token (so initFails has one
entry per new token), and restarts the market stream with the currently
subscribed instruments when that set is non-empty.  The portfolio
stream restart carries no claim-relevant state. -/
def reload_tokens (st : UpstreamState) (access_tokens : List String)
    (initFails : List Bool) : Option UpstreamState :=
  if access_tokens.isEmpty then none
  else
    let st1 := { st with access_tokens := access_tokens }
    let instruments := get_subscribed_instruments st1
    if instruments.isEmpty then some st1
    else some (start_market_data_stream initFails st1 instruments)

/-! ## Ingestion pipeline: _process_ohlc_data (lines 730-891) -/

/-- A JSON value that may arrive as a decimal string or as a number
(the ts and vol fields of a broker OHLC item). -/
inductive StrOrNum where
  | str (s : String)
  | num (n : Int)
deriving DecidableEq, Repr

/-- Coercion used for both ts (lines 793-797) and vol (lines 802-807):
a string parses via isdigit/int (0 when not all digits), a number is
taken as is except that a falsy (zero) value yields 0, which for an
integer is the identity. -/
def parse_int_field : StrOrNum → Int
  | .str s => match s.toNat? with
    | some n => (n : Int)
    | none => 0
  | .num n => n

/-- One entry of the ohlc list inside a marketOHLC block.  The price
fields arrive through float() with default 0; they are modelled as the
already-coerced Rat values.  Non-dict entries of the list (skipped at
line 780) are excluded by typing. -/
structure OhlcItem where
  interval : String
  ts : StrOrNum
  vol : StrOrNum
  open_ : Rat
  high : Rat
  low : Rat
  close : Rat
deriving DecidableEq, Repr

/-- The ltpc block of a feed, as far as the pipeline reads it. -/
structure LtpcBlock where
  ltq : Option String
deriving DecidableEq, Repr

/-- The feed context (marketFF or indexFF dictionary) as far as
_process_ohlc_data reads it (lines 758-771). -/
structure FeedContext where
  ltpc : Option LtpcBlock
  marketLevel : Option String
  optionGreeks : Option String
  atp : Option Rat
  vtt : Option String
  oi : Option Rat
  iv : Option Rat
  tbq : Option Rat
  tsq : Option Rat
deriving DecidableEq, Repr

/-- Extraction of the extended fields from an optional feed context
(lines 746-771): with no context every field is None; ltq comes from
the ltpc block when present. -/
def extract_extras : Option FeedContext → FeedExtras
  | none => FeedExtras.none_
  | some fc =>
    { ltq := match fc.ltpc with
        | some blk => blk.ltq
        | none => none
      market_level := fc.marketLevel
      option_greeks := fc.optionGreeks
      atp := fc.atp
      vtt := fc.vtt
      oi := fc.oi
      iv := fc.iv
      tbq := fc.tbq
      tsq := fc.tsq }

/-- The interval_map dictionary (lines 773-777): Upstox I1 -> 1min,
1d -> 1day, anything else (including the empty string skipped at
line 784) unmapped. -/
def interval_map (s : String) : Option String :=
  if s = "I1" then some "1min"
  else if s = "1d" then some "1day"
  else none

/-- Per-(instrument, interval) transition state (lines 815-818):
last_timestamp starts at 0, last_candle at None. -/
structure CandleSlot where
  last_timestamp : Int
  last_candle : Option OHLCCandle
deriving DecidableEq, Repr

/-- The last_candle_state nested dictionary, instrument -> interval ->
slot.  The source initialises a missing entry to {0, None} before
reading it (lines 811-818), so a total function with that default is
observationally identical. -/
abbrev CandleStateMap : Type := String → String → CandleSlot

/-- The default slot used on first touch of an (instrument, interval). -/
def CandleSlot.init : CandleSlot := ⟨0, none⟩

/-- Update of one (instrument, interval) slot. -/
def CandleStateMap.set (st : CandleStateMap) (ik iv : String) (slot : CandleSlot) :
    CandleStateMap :=
  fun i j => if i = ik ∧ j = iv then slot else st i j

/-- Effects of a pipeline step: candles written to the Redis series
via _cache_ohlc_candle, and candles handed to _broadcast_ohlc_update,
in order. -/
structure ProcessEffects where
  cacheWrites : List OHLCCandle
  broadcasts : List OHLCCandle
deriving DecidableEq, Repr

/-- The transition write of lines 824-830: when the slot records a
positive last timestamp different from the current one, the previous
active candle is re-stamped "completed" and emitted to the cache;
otherwise nothing is written. -/
def finalized_writes (last_state : CandleSlot) (current_timestamp : Int) :
    List OHLCCandle :=
  if last_state.last_timestamp > 0 ∧
      current_timestamp ≠ last_state.last_timestamp then
    match last_state.last_candle with
    | some last_candle => [{ last_candle with candle_status := "completed" }]
    | none => []
  else []

/-- The body of the per-item loop of _process_ohlc_data
(lines 779-886) for one ohlc item: interval mapping, ts and vol
coercion, zero-timestamp rejection, the 1-minute transition rule
(finalise the previous active candle as completed on a timestamp
change, install the frame's candle as the new active one), the 1-day
always-completed rule, and the unconditional broadcast of the freshly
built candle. -/
def process_ohlc_item (extras : FeedExtras) (instrument_key : String)
    (st : CandleStateMap) (item : OhlcItem) :
    CandleStateMap × ProcessEffects :=
  match interval_map item.interval with
  | none => (st, ⟨[], []⟩)
  | some interval =>
    let current_timestamp := parse_int_field item.ts
    if current_timestamp = 0 then (st, ⟨[], []⟩)
    else
      let volume := parse_int_field item.vol
      if interval = "1min" then
        let last_state := st instrument_key interval
        let writes := finalized_writes last_state current_timestamp
        let candle : OHLCCandle :=
          { instrument_key := instrument_key
            interval := interval
            open_ := item.open_
            high := item.high
            low := item.low
            close := item.close
            volume := volume
            timestamp := current_timestamp
            candle_status := "active"
            extras := extras }
        (st.set instrument_key interval ⟨current_timestamp, some candle⟩,
         ⟨writes, [candle]⟩)
      else
        -- interval = "1day": always cached, always completed (lines 858-883)
        let candle : OHLCCandle :=
          { instrument_key := instrument_key
            interval := interval
            open_ := item.open_
            high := item.high
            low := item.low
            close := item.close
            volume := volume
            timestamp := current_timestamp
            candle_status := "completed"
            extras := extras }
        (st, ⟨[candle], [candle]⟩)

/-- The marketOHLC block: ohlc holds the candle list; none models a
missing or non-list ohlc entry (lines 739-744). -/
structure MarketOhlcMsg where
  ohlc : Option (List OhlcItem)
deriving DecidableEq, Repr

/-- One iteration of the per-item loop of _process_ohlc_data: thread
the transition state and append the iteration's cache writes and
broadcasts to the accumulated effects. -/
def process_ohlc_step (extras : FeedExtras) (instrument_key : String)
    (acc : CandleStateMap × ProcessEffects) (item : OhlcItem) :
    CandleStateMap × ProcessEffects :=
  let step := process_ohlc_item extras instrument_key acc.1 item
  (step.1, ⟨acc.2.cacheWrites ++ step.2.cacheWrites,
            acc.2.broadcasts ++ step.2.broadcasts⟩)

/-- DataService._process_ohlc_data, outer shape (lines 730-744): guard
on the marketOHLC block, extraction of the extended fields from the
feed context, then the per-item loop folded over the ohlc list. -/
def process_ohlc_data (instrument_key : String) (market_ohlc : Option MarketOhlcMsg)
    (feed_context : Option FeedContext) (st : CandleStateMap) :
    CandleStateMap × ProcessEffects :=
  match market_ohlc with
  | none => (st, ⟨[], []⟩)
  | some msg =>
    match msg.ohlc with
    | none => (st, ⟨[], []⟩)
    | some ohlc_list =>
      let extras := extract_extras feed_context
      ohlc_list.foldl (process_ohlc_step extras instrument_key) (st, ⟨[], []⟩)

/-- The ohlc_data message built by _broadcast_ohlc_update
(lines 1271-1284); the constant type field is "ohlc_data". -/
structure OhlcDataMessage where
  type_ : String
  instrument_key : String
  interval : String
  open_ : Rat
  high : Rat
  low : Rat
  close : Rat
  volume : Int
  timestamp : Int
  candle_status : String
deriving DecidableEq, Repr

/-- Message construction of DataService._broadcast_ohlc_update
(lines 1266-1284): the data dictionary copies the candle's fields,
including its candle_status, verbatim. -/
def broadcast_ohlc_message (c : OHLCCandle) : OhlcDataMessage :=
  { type_ := "ohlc_data"
    instrument_key := c.instrument_key
    interval := c.interval
    open_ := c.open_
    high := c.high
    low := c.low
    close := c.close
    volume := c.volume
    timestamp := c.timestamp
    candle_status := c.candle_status }

/-! ## Redis candle cache: _cache_ohlc_candle, _cache_ohlc_from_api
(lines 1218-1264, 1698-1743) -/

/-- The JSON candle dictionary stored in Redis.  The live path
(_cache_ohlc_candle) serialises the nine extended fields (possibly
null): extras = some e.  The API path (_cache_ohlc_from_api) serialises
a dictionary without those keys: extras = none.  json.dumps is
injective on these records, so the record itself models the member
string. -/
structure CandleJson where
  instrument_key : String
  interval : String
  open_ : Rat
  high : Rat
  low : Rat
  close : Rat
  volume : Int
  timestamp : Int
  candle_status : String
  extras : Option FeedExtras
deriving DecidableEq, Repr

/-- A Redis sorted set: members with scores, in insertion order. -/
abbrev Zset : Type := List (CandleJson × Int)

/-- Redis ZADD semantics (line 1254): the set is keyed on the member
string; an existing member gets its score updated in place, a new
member is added.  A member differing in any serialised field is a new
member even at an existing score. -/
def zadd (z : Zset) (member : CandleJson) (score : Int) : Zset :=
  if z.any (fun p => p.1 = member) then
    z.map (fun p => if p.1 = member then (member, score) else p)
  else z ++ [(member, score)]

/-- The slice of Redis the candle cache touches: the per-key ZSETs with
their TTL state (none models TTL -1, no expiry set) and the string
keys holding the :latest candle (written with setex, constant TTL
86400, so only the value is tracked). -/
structure RedisState where
  zsets : String → Zset
  zset_ttls : String → Option Nat
  latest_strings : String → Option CandleJson

/-- The Redis state with no keys. -/
def RedisState.empty : RedisState :=
  ⟨fun _ => [], fun _ => none, fun _ => none⟩

/-- Pointwise update helper for string-keyed stores. -/
def upd {α : Type} (m : String → α) (k : String) (v : α) : String → α :=
  fun x => if x = k then v else m x

/-- The series key ohlc:trading_date:instrument_key:interval
(line 1225). -/
def ohlc_zset_key (trading_date instrument_key interval : String) : String :=
  "ohlc:" ++ trading_date ++ ":" ++ instrument_key ++ ":" ++ interval

/-- The :latest pointer key (line 1226). -/
def ohlc_latest_key (trading_date instrument_key interval : String) : String :=
  ohlc_zset_key trading_date instrument_key interval ++ ":latest"

/-- The candle_data dictionary serialised by _cache_ohlc_candle
(lines 1228-1250): all candle fields including the extended ones. -/
def candle_to_json (c : OHLCCandle) : CandleJson :=
  { instrument_key := c.instrument_key
    interval := c.interval
    open_ := c.open_
    high := c.high
    low := c.low
    close := c.close
    volume := c.volume
    timestamp := c.timestamp
    candle_status := c.candle_status
    extras := some c.extras }

/-- DataService._cache_ohlc_candle (lines 1218-1264), parameterised by
the pure trading-date computation _calculate_trading_date (the
in-memory trading-date cache it also refreshes is master-data only and
does not affect the keys).  ZADD at score = start-timestamp, TTL set
only when the ZSET has none, and the :latest key overwritten
unconditionally (line 1261). -/
def cache_ohlc_candle (calc_trading_date : Int → String) (r : RedisState)
    (candle : OHLCCandle) : RedisState :=
  let trading_date := calc_trading_date candle.timestamp
  let zset_key := ohlc_zset_key trading_date candle.instrument_key candle.interval
  let latest_key := ohlc_latest_key trading_date candle.instrument_key candle.interval
  let candle_json := candle_to_json candle
  let new_zsets := upd r.zsets zset_key (zadd (r.zsets zset_key) candle_json candle.timestamp)
  let new_ttls :=
    if r.zset_ttls zset_key = none then upd r.zset_ttls zset_key (some 86400)
    else r.zset_ttls
  { zsets := new_zsets
    zset_ttls := new_ttls
    latest_strings := upd r.latest_strings latest_key (some candle_json) }

/-- A candle dictionary built by _fetch_ohlc_from_api
(lines 1682-1689). -/
structure ApiCandle where
  timestamp : Int
  open_ : Rat
  high : Rat
  low : Rat
  close : Rat
  volume : Int
deriving DecidableEq, Repr

/-- The dictionary as it stands after _cache_ohlc_from_api has set
instrument_key, interval and candle_status = "completed" on it in
place (lines 1705-1708); the extended-field keys are absent. -/
def api_candle_to_json (instrument_key interval : String) (c : ApiCandle) : CandleJson :=
  { instrument_key := instrument_key
    interval := interval
    open_ := c.open_
    high := c.high
    low := c.low
    close := c.close
    volume := c.volume
    timestamp := c.timestamp
    candle_status := "completed"
    extras := none }

/-- DataService._cache_ohlc_from_api (lines 1698-1743): zero-timestamp
guard, ZADD as above, and a conditional :latest update — only when no
valid latest is stored or the new timestamp is strictly greater
(lines 1726-1740).  Stored latest values are always well-formed in
this model, so the JSONDecodeError arm (line 1735) is unreachable. -/
def cache_ohlc_from_api (calc_trading_date : Int → String) (r : RedisState)
    (instrument_key interval : String) (candle_data : ApiCandle) : RedisState :=
  if candle_data.timestamp = 0 then r
  else
    let trading_date := calc_trading_date candle_data.timestamp
    let zset_key := ohlc_zset_key trading_date instrument_key interval
    let latest_key := ohlc_latest_key trading_date instrument_key interval
    let candle_json := api_candle_to_json instrument_key interval candle_data
    let new_zsets := upd r.zsets zset_key (zadd (r.zsets zset_key) candle_json candle_data.timestamp)
    let new_ttls :=
      if r.zset_ttls zset_key = none then upd r.zset_ttls zset_key (some 86400)
      else r.zset_ttls
    let new_latest :=
      match r.latest_strings latest_key with
      | some latest_candle =>
        if candle_data.timestamp > latest_candle.timestamp then
          upd r.latest_strings latest_key (some candle_json)
        else r.latest_strings
      | none => upd r.latest_strings latest_key (some candle_json)
    { zsets := new_zsets
      zset_ttls := new_ttls
      latest_strings := new_latest }

/-! ## History hydrator: _fetch_and_send_historical and helpers
(lines 1553-1760) -/

/-- Stable insertion of one element into a list sorted by le. -/
def insert_by {α : Type} (le : α → α → Bool) (x : α) : List α → List α
  | [] => [x]
  | y :: ys => if le x y then x :: y :: ys else y :: insert_by le x ys

/-- Stable sort by a boolean total preorder (models both the
score-ascending order of ZRANGE and Python list.sort with a key). -/
def sort_by {α : Type} (le : α → α → Bool) : List α → List α
  | [] => []
  | x :: xs => insert_by le x (sort_by le xs)

/-- DataService._get_cached_ohlc_candles (lines 1614-1649): key from
the trading date of the current wall-clock ms timestamp (the
trading_date argument is None on the hydrator path), ZRANGE 0 -1
(members ascending by score), then a defensive re-sort by the
timestamp field.  Stored members are well-formed, so the
JSONDecodeError skip (line 1639) is unreachable. -/
def get_cached_ohlc_candles (calc_trading_date : Int → String) (r : RedisState)
    (instrument_key interval : String) (now_ms : Int) : List CandleJson :=
  let trading_date := calc_trading_date now_ms
  let zset_key := ohlc_zset_key trading_date instrument_key interval
  let members := (sort_by (fun p q => p.2 ≤ q.2) (r.zsets zset_key)).map Prod.fst
  sort_by (fun a b => a.timestamp ≤ b.timestamp) members

/-- The intervals the hydrator's interval_map supports
(lines 1561-1567 and 1655-1661). -/
def supported_intervals : List String := ["1min", "5min", "15min", "30min", "1day"]

/-- Python int() truncation toward zero on a numeric value. -/
def py_int (q : Rat) : Int :=
  if q < 0 then -Rat.floor (-q) else Rat.floor q

/-- One raw candle row of the History API response, a JSON array
[ts, o, h, l, c, vol] of numbers. -/
def RawApiRow : Type := List Rat

/-- Conversion of one raw row (lines 1682-1689): positional access
with 0 defaults for short rows; int() for the timestamp and volume,
float() for the prices. -/
def convert_api_row (row : RawApiRow) : ApiCandle :=
  { timestamp := py_int (row.headD 0)
    open_ := row.getD 1 0
    high := row.getD 2 0
    low := row.getD 3 0
    close := row.getD 4 0
    volume := py_int (row.getD 5 0) }

/-- DataService._fetch_ohlc_from_api (lines 1651-1696).  The whole body
runs under a try/except that returns [] on any failure, so a failing
SDK call (modelled as Except.error), a response without data, and an
empty row (whose candle[0] access raises IndexError) all yield [].
The unit/size mapping and today's date feed only the SDK call. -/
def fetch_ohlc_from_api (interval_str : String)
    (api_response : Except String (Option (List RawApiRow))) : List ApiCandle :=
  if ¬ supported_intervals.contains interval_str then []
  else
    match api_response with
    | .error _ => []
    | .ok none => []
    | .ok (some rows) =>
      if rows.any (fun row => row.isEmpty) then []
      else rows.map convert_api_row

/-- The ohlc_snapshot message (lines 1745-1760); snapshot_time is
wall-clock and elided.  candle_count is set to len(candles). -/
structure OhlcSnapshot where
  instrument_key : String
  interval : String
  candles : List CandleJson
  candle_count : Nat
deriving DecidableEq, Repr

/-- Snapshot construction of _send_ohlc_snapshot. -/
def mk_ohlc_snapshot (instrument_key interval : String) (candles : List CandleJson) :
    OhlcSnapshot :=
  ⟨instrument_key, interval, candles, candles.length⟩

/-- DataService._fetch_and_send_historical (lines 1578-1612): cache
first; on an empty cache, the API (whose own failures surface as an
empty list); an API result is cached candle by candle — mutating the
dictionaries in place, so the snapshot then sent carries the enriched
records — and a doubly-empty outcome still sends an empty snapshot
(line 1604).  The outer exception handler (line 1605) guards calls
that are total in this model, so the no-snapshot path is unreachable
here.  Returns the new cache state and the snapshot sent, if any. -/
def fetch_and_send_historical (calc_trading_date : Int → String) (r : RedisState)
    (instrument_key interval_str : String) (now_ms : Int)
    (api_response : Except String (Option (List RawApiRow))) :
    RedisState × Option OhlcSnapshot :=
  let cached_candles := get_cached_ohlc_candles calc_trading_date r instrument_key interval_str now_ms
  if ¬ cached_candles.isEmpty then
    (r, some (mk_ohlc_snapshot instrument_key interval_str cached_candles))
  else
    let api_candles := fetch_ohlc_from_api interval_str api_response
    if ¬ api_candles.isEmpty then
      let r' := api_candles.foldl
        (fun s c => cache_ohlc_from_api calc_trading_date s instrument_key interval_str c) r
      (r', some (mk_ohlc_snapshot instrument_key interval_str
        (api_candles.map (api_candle_to_json instrument_key interval_str))))
    else
      (r, some (mk_ohlc_snapshot instrument_key interval_str []))

/-! ## Claim C6: tick-filter subscribe/unsubscribe round trip -/

/-- Registry with one client "C" whose tick filter already contains
"A", the pre-existing state for the C6 counterexample. -/
def c6_m0 : Subscribers := fun k => if k = "C" then some {"A"} else none

/-- C6 counterexample: for the client "C" whose filter already holds
"A", subscribing ["A"] and then unsubscribing ["A"] leaves the empty
filter, not the prior filter, because unsubscribe is plain set
difference.  The claim as stated is therefore false. -/
theorem C6_counterexample :
    get_client_subscriptions
      (update_subscriptions
        (update_subscriptions c6_m0 "C" "subscribe" ["A"]).1
        "C" "unsubscribe" ["A"]).1 "C" = (∅ : Finset String) ∧
    get_client_subscriptions c6_m0 "C" = {"A"} ∧
    (∅ : Finset String) ≠ {"A"} := by
  refine ⟨by decide, by decide, by decide⟩

/-- C6 (amended): a tick-filter subscribe of a list of instruments
followed immediately by an unsubscribe of the same list returns the
client's filter to its prior state provided none of those instruments
was already in the filter; in general the round trip yields the prior
filter minus the listed instruments. -/
theorem C6_roundtrip_of_disjoint (m : Subscribers) (cid : String)
    (S : Finset String) (is : List String)
    (hm : m cid = some S) (hdisj : Disjoint S is.toFinset) :
    get_client_subscriptions
      (update_subscriptions (update_subscriptions m cid "subscribe" is).1
        cid "unsubscribe" is).1 cid = S := by
  simp [update_subscriptions, get_client_subscriptions, Subscribers.set, hm,
    Finset.union_sdiff_cancel_right hdisj]

/-- Registry with one client "C" whose filter is {"P"}, disjoint from
["A"], used to witness the amended C6 theorem. -/
def c6_w0 : Subscribers := fun k => if k = "C" then some {"P"} else none

/-- Witness for the amended C6 theorem at a concrete disjoint input. -/
theorem C6_roundtrip_witness :
    get_client_subscriptions
      (update_subscriptions (update_subscriptions c6_w0 "C" "subscribe" ["A"]).1
        "C" "unsubscribe" ["A"]).1 "C" = {"P"} :=
  C6_roundtrip_of_disjoint c6_w0 "C" {"P"} ["A"] (by decide) (by decide)

/-! ## Claim C8: subscribe then get_subscriptions -/

/-- C8: after processing a subscribe of two instruments a and b for a
connected client, get_subscriptions reports exactly the pre-existing
filter united with those two instruments. -/
theorem C8_subscribe_then_get (m : Subscribers) (cid a b : String) (S : Finset String)
    (hm : m cid = some S) :
    get_client_subscriptions (update_subscriptions m cid "subscribe" [a, b]).1 cid
      = S ∪ {a, b} := by
  simp [update_subscriptions, get_client_subscriptions, Subscribers.set, hm]

/-- Registry with one client "X" whose filter is {"P"}, used to witness
C8. -/
def c8_m0 : Subscribers := fun k => if k = "X" then some {"P"} else none

/-- Witness for C8 at a concrete client and instrument pair. -/
theorem C8_subscribe_then_get_witness :
    get_client_subscriptions (update_subscriptions c8_m0 "X" "subscribe" ["A", "B"]).1 "X"
      = {"P"} ∪ {"A", "B"} :=
  C8_subscribe_then_get c8_m0 "X" "A" "B" {"P"} (by decide)

/-! ## Claim C10: unsubscribe_ohlc with instruments = None -/

/-- C10: for a client that has OHLC subscriptions, unsubscribe_ohlc
with instruments = None deletes all of that client's OHLC
subscriptions and reports success, touches no other client, and its
result does not depend on the intervals argument at all. -/
theorem C10_unsubscribe_all (subs : OhlcSubscribers) (cid : String)
    (ivs : Option (List String)) (filt : OhlcFilter)
    (hm : subs cid = some filt) :
    (unsubscribe_ohlc subs cid none ivs).2.1 = true ∧
    (unsubscribe_ohlc subs cid none ivs).1 cid = none ∧
    (∀ k, k ≠ cid → (unsubscribe_ohlc subs cid none ivs).1 k = subs k) ∧
    unsubscribe_ohlc subs cid none ivs = unsubscribe_ohlc subs cid none none := by
  refine ⟨by simp [unsubscribe_ohlc, hm, OhlcSubscribers.set],
    by simp [unsubscribe_ohlc, hm, OhlcSubscribers.set],
    fun k hk => by simp [unsubscribe_ohlc, hm, OhlcSubscribers.set, hk],
    by simp [unsubscribe_ohlc, hm]⟩

/-- OHLC registry with one client "C" subscribed to instrument "I" at
interval 1min, used to witness C10. -/
def c10_subs : OhlcSubscribers :=
  fun k => if k = "C" then some [("I", {"1min"})] else none

/-- Witness for C10 at a concrete client, with a non-None intervals
argument being ignored. -/
theorem C10_unsubscribe_all_witness :
    (unsubscribe_ohlc c10_subs "C" none (some ["5min"])).2.1 = true ∧
    (unsubscribe_ohlc c10_subs "C" none (some ["5min"])).1 "C" = none ∧
    unsubscribe_ohlc c10_subs "C" none (some ["5min"])
      = unsubscribe_ohlc c10_subs "C" none none :=
  have h := C10_unsubscribe_all c10_subs "C" (some ["5min"]) [("I", {"1min"})] (by decide)
  ⟨h.1, h.2.1, h.2.2.2⟩

/-! ## Claim C7: change_instrument_mode success and mode map -/

/-- Folding mode assignments over an instrument list leaves keys
outside the list untouched. -/
theorem modemap_foldl_set_notmem (l : List String) (mode : String) (m : ModeMap)
    (i : String) (hi : i ∉ l) :
    (l.foldl (fun acc j => acc.set j mode) m) i = m i := by
  induction l generalizing m with
  | nil => rfl
  | cons j rest ih =>
    simp only [List.mem_cons, not_or] at hi
    simp only [List.foldl_cons]
    rw [ih _ hi.2]
    simp [ModeMap.set, hi.1]

/-- Folding mode assignments over an instrument list maps every listed
instrument to the assigned mode. -/
theorem modemap_foldl_set_mem (l : List String) (mode : String) (m : ModeMap)
    (i : String) (hi : i ∈ l) :
    (l.foldl (fun acc j => acc.set j mode) m) i = some mode := by
  induction l generalizing m with
  | nil => cases hi
  | cons j rest ih =>
    simp only [List.foldl_cons]
    by_cases h : i ∈ rest
    · exact ih _ h
    · have hij : i = j := by
        rcases List.mem_cons.mp hi with h1 | h2
        · exact h1
        · exact absurd h2 h
      rw [modemap_foldl_set_notmem rest mode _ i h]
      simp [ModeMap.set, hij]

/-- C7: for a non-empty list of instruments all currently subscribed
and a valid mode, change_instrument_mode succeeds iff some active
streamer accepts the call (a streamer slot holding some true), and on
success the internal mode map sends every listed instrument to the new
mode regardless of which streamers failed. -/
theorem C7_change_mode_success_iff (streamers : List (Option Bool)) (st : UpstreamState)
    (instruments : List String) (mode : String)
    (hne : instruments ≠ [])
    (hsub : ∀ i ∈ instruments, i ∈ st.subscribed_instruments)
    (hmode : mode ∈ valid_modes) :
    ((change_instrument_mode streamers st instruments mode).1 = true ↔
      some true ∈ streamers) ∧
    ((change_instrument_mode streamers st instruments mode).1 = true →
      ∀ i ∈ instruments,
        (change_instrument_mode streamers st instruments mode).2.instrument_modes i
          = some mode) := by
  have hmiss : (instruments.filter (fun i => ¬ i ∈ st.subscribed_instruments)) = [] := by
    refine List.filter_eq_nil_iff.mpr (fun a ha => ?_)
    simpa using hsub a ha
  have hmiss' : ¬ ∃ x ∈ instruments, x ∉ st.subscribed_instruments := by
    push_neg
    exact hsub
  have hactive : true ∈ streamers.filterMap id ↔ some true ∈ streamers := by
    simp [List.mem_filterMap]
  by_cases hemp : (streamers.filterMap id).isEmpty
  · have hnot : ¬ some true ∈ streamers := by
      rw [← hactive]
      rw [List.isEmpty_iff] at hemp
      simp [hemp]
    simp [change_instrument_mode, hemp, hnot]
  · have hcount : (0 < ((streamers.filterMap id).filter id).length) ↔
        some true ∈ streamers := by
      rw [List.length_pos, Ne, List.filter_eq_nil_iff, ← hactive]
      simp
    by_cases hacc : some true ∈ streamers
    · constructor
      · simp [change_instrument_mode, hemp, List.isEmpty_iff.not.mpr hne, hmode,
          hmiss, hmiss', hcount.mpr hacc, hacc]
      · intro _ i hi
        simp only [change_instrument_mode, hemp, List.isEmpty_iff.not.mpr hne,
          hmode, hmiss, hmiss', hcount.mpr hacc]
        simp [List.isEmpty_iff.not.mpr hne, hmode, hcount.mpr hacc,
          modemap_foldl_set_mem instruments mode st.instrument_modes i hi]
    · have : ¬ (0 < ((streamers.filterMap id).filter id).length) := by
        rw [hcount]; exact hacc
      constructor
      · simp [change_instrument_mode, hemp, List.isEmpty_iff.not.mpr hne, hmode,
          hmiss, hmiss', this, hacc]
      · intro hfalse
        exfalso
        simp [change_instrument_mode, hemp, List.isEmpty_iff.not.mpr hne, hmode,
          hmiss, hmiss', this] at hfalse

/-- Concrete upstream state for the C7 witness: instrument "A"
subscribed with mode "full". -/
def c7_st : UpstreamState :=
  ⟨["T0"], {"A"}, fun k => if k = "A" then some "full" else none⟩

/-- Witness for C7: with one accepting streamer, one raising streamer
and one dead slot, the call succeeds and the mode map records "ltpc"
for "A". -/
theorem C7_change_mode_witness :
    (change_instrument_mode [some true, some false, none] c7_st ["A"] "ltpc").1 = true ∧
    (change_instrument_mode [some true, some false, none] c7_st ["A"] "ltpc").2.instrument_modes "A"
      = some "ltpc" :=
  have h := C7_change_mode_success_iff [some true, some false, none] c7_st ["A"] "ltpc"
    (by decide) (by decide) (by decide)
  have ht := h.1.mpr (by decide)
  ⟨ht, h.2 ht "A" (by decide)⟩

/-! ## Claim C1: token reload and the mode map -/

/-- Concrete pre-reload state for C1: instrument "B" subscribed with
mode "ltpc". -/
def c1_st : UpstreamState :=
  ⟨["T0"], {"B"}, fun k => if k = "B" then some "ltpc" else none⟩

/-- C1 evaluation at the failing input: reloading tokens with one new
token (whose streamer initialises cleanly) preserves the subscribed
set but resets instrument "B" from mode "ltpc" to "full", because
start_market_data_stream reinitialises every restarted instrument's
mode to "full" (lines 320-322) even though the comment at line 234
asserts instrument_modes are preserved during token reload. -/
theorem C1_reload_resets_mode_to_full :
    c1_st.instrument_modes "B" = some "ltpc" ∧
    (reload_tokens c1_st ["T1"] [false]).map (fun s => s.instrument_modes "B")
      = some (some "full") ∧
    (reload_tokens c1_st ["T1"] [false]).map (fun s => s.subscribed_instruments)
      = some {"B"} := by
  refine ⟨rfl, ?_, ?_⟩ <;>
    simp [reload_tokens, get_subscribed_instruments, start_market_data_stream,
      c1_st, Finset.sort_singleton, ModeMap.set]

/-! ## Claim C5: 1-minute candle transition -/

/-- C5: when the pipeline processes a 1-minute item whose non-zero
parsed start-timestamp t differs from the recorded last timestamp L of
the instrument's slot, the previously recorded active candle is
emitted to the cache with status "completed", and the slot afterwards
holds exactly the frame's candle, with status "active" and
last_timestamp = t — so the per-instrument slot, being a single
Option-valued cell, holds at most one active 1-minute candle at any
time. -/
theorem C5_candle_transition (extras : FeedExtras) (ik : String)
    (st : CandleStateMap) (item : OhlcItem) (L t : Int) (lc : OHLCCandle)
    (hmap : interval_map item.interval = some "1min")
    (hslot : st ik "1min" = ⟨L, some lc⟩)
    (hL : 0 < L)
    (ht : parse_int_field item.ts = t)
    (ht0 : t ≠ 0)
    (htL : t ≠ L) :
    (process_ohlc_item extras ik st item).2.cacheWrites
        = [{ lc with candle_status := "completed" }] ∧
    (process_ohlc_item extras ik st item).1 ik "1min"
        = ⟨t, some ⟨ik, "1min", item.open_, item.high, item.low, item.close,
                    parse_int_field item.vol, t, "active", extras⟩⟩ := by
  simp only [process_ohlc_item, hmap, ht, ht0, hslot]
  simp [CandleStateMap.set, finalized_writes, hL, htL, ht0]

/-- The previously active candle used by the C5 witness. -/
def c5_prev : OHLCCandle :=
  ⟨"I", "1min", 10, 11, 9, 10, 3, 60000, "active", FeedExtras.none_⟩

/-- Candle-state map holding c5_prev as the active 1-minute candle of
instrument "I" at timestamp 60000. -/
def c5_st : CandleStateMap :=
  fun i j => if i = "I" ∧ j = "1min" then ⟨60000, some c5_prev⟩ else CandleSlot.init

/-- The broker item used by the C5 witness: a 1-minute candle whose
string timestamp parses to 120000. -/
def c5_item : OhlcItem :=
  ⟨"I1", StrOrNum.num 120000, StrOrNum.num 5, 1, 2, 3, 4⟩

/-- Witness for C5 at a concrete transition input. -/
theorem C5_candle_transition_witness :
    (process_ohlc_item FeedExtras.none_ "I" c5_st c5_item).2.cacheWrites
        = [{ c5_prev with candle_status := "completed" }] ∧
    (process_ohlc_item FeedExtras.none_ "I" c5_st c5_item).1 "I" "1min"
        = ⟨120000, some ⟨"I", "1min", c5_item.open_, c5_item.high, c5_item.low,
                         c5_item.close, parse_int_field c5_item.vol, 120000,
                         "active", FeedExtras.none_⟩⟩ :=
  C5_candle_transition FeedExtras.none_ "I" c5_st c5_item 60000 120000 c5_prev
    (by decide) (by decide) (by decide) (by decide) (by decide) (by decide)

/-! ## Claim C9: broadcast candle statuses -/

/-- Every candle the transition write emits carries status
"completed". -/
theorem mem_finalized_writes_status (slot : CandleSlot) (t : Int)
    (c : OHLCCandle) (hc : c ∈ finalized_writes slot t) :
    c.candle_status = "completed" := by
  unfold finalized_writes at hc
  split at hc
  · rcases h : slot.last_candle with _ | lc <;> rw [h] at hc
    · cases hc
    · rw [List.mem_singleton] at hc
      subst hc
      rfl
  · cases hc

/-- Per-item status facts: every candle an item hands to the broadcast
path carries status "active" when its interval is 1min and "completed"
when its interval is 1day, and every 1-minute candle an item writes to
the cache carries status "completed". -/
theorem process_ohlc_item_statuses (extras : FeedExtras) (ik : String)
    (st : CandleStateMap) (item : OhlcItem) :
    (∀ c ∈ (process_ohlc_item extras ik st item).2.broadcasts,
      (c.interval = "1min" → c.candle_status = "active") ∧
      (c.interval = "1day" → c.candle_status = "completed")) ∧
    (∀ c ∈ (process_ohlc_item extras ik st item).2.cacheWrites,
      c.interval = "1min" → c.candle_status = "completed") := by
  unfold process_ohlc_item
  cases hmap : interval_map item.interval with
  | none => simp
  | some iv =>
    have hiv : iv = "1min" ∨ iv = "1day" := by
      unfold interval_map at hmap
      by_cases h1 : item.interval = "I1"
      · simp [h1] at hmap
        exact Or.inl hmap.symm
      · by_cases h2 : item.interval = "1d"
        · simp [h1, h2] at hmap
          exact Or.inr hmap.symm
        · simp [h1, h2] at hmap
    by_cases ht : parse_int_field item.ts = 0
    · simp [ht]
    · rcases hiv with h | h <;> subst h
      · refine ⟨?_, ?_⟩
        · intro c hc
          simp [ht] at hc
          subst hc
          simp
        · intro c hc
          simp [ht] at hc
          exact fun _ => mem_finalized_writes_status _ _ c hc
      · constructor <;> intro c hc <;> simp [ht] at hc <;> subst hc <;> simp

/-- Folding the per-item loop preserves the two status properties over
the accumulated effects. -/
theorem process_fold_statuses (extras : FeedExtras) (ik : String)
    (l : List OhlcItem) :
    ∀ (st : CandleStateMap) (acc : ProcessEffects),
      (∀ c ∈ acc.broadcasts,
        (c.interval = "1min" → c.candle_status = "active") ∧
        (c.interval = "1day" → c.candle_status = "completed")) →
      (∀ c ∈ acc.cacheWrites, c.interval = "1min" → c.candle_status = "completed") →
      (∀ c ∈ (l.foldl (process_ohlc_step extras ik) (st, acc)).2.broadcasts,
        (c.interval = "1min" → c.candle_status = "active") ∧
        (c.interval = "1day" → c.candle_status = "completed")) ∧
      (∀ c ∈ (l.foldl (process_ohlc_step extras ik) (st, acc)).2.cacheWrites,
        c.interval = "1min" → c.candle_status = "completed") := by
  induction l with
  | nil => exact fun st acc hb hw => ⟨hb, hw⟩
  | cons item rest ih =>
    intro st acc hb hw
    simp only [List.foldl_cons]
    refine ih _ _ ?_ ?_
    · intro c hc
      simp only [process_ohlc_step, List.mem_append] at hc
      rcases hc with hc | hc
      · exact hb c hc
      · exact (process_ohlc_item_statuses extras ik st item).1 c hc
    · intro c hc
      simp only [process_ohlc_step, List.mem_append] at hc
      rcases hc with hc | hc
      · exact hw c hc
      · exact (process_ohlc_item_statuses extras ik st item).2 c hc

/-- C9: over any broker frame, every candle handed to
_broadcast_ohlc_update with interval 1min yields an ohlc_data message
with candle_status "active" and every 1-day one a message with
candle_status "completed"; the completed 1-minute candles produced at
transitions go to the cache-write path (always with status
"completed"), never to the broadcast path. -/
theorem C9_broadcast_statuses (ik : String) (msg : Option MarketOhlcMsg)
    (fc : Option FeedContext) (st : CandleStateMap) :
    (∀ c ∈ (process_ohlc_data ik msg fc st).2.broadcasts,
      (c.interval = "1min" → (broadcast_ohlc_message c).candle_status = "active") ∧
      (c.interval = "1day" → (broadcast_ohlc_message c).candle_status = "completed")) ∧
    (∀ c ∈ (process_ohlc_data ik msg fc st).2.cacheWrites,
      c.interval = "1min" → c.candle_status = "completed") := by
  unfold process_ohlc_data
  cases msg with
  | none => simp
  | some m =>
    cases m with
    | mk ohlc =>
      cases ohlc with
      | none => simp
      | some ohlc_list =>
        have h := process_fold_statuses (extract_extras fc) ik ohlc_list st ⟨[], []⟩
          (by simp) (by simp)
        exact ⟨fun c hc => (h.1 c hc), h.2⟩

/-- The broker message used by the C9 witness: one 1-minute item. -/
def c9_msg : MarketOhlcMsg :=
  ⟨some [⟨"I1", StrOrNum.num 60000, StrOrNum.num 10, 1, 2, 3, 4⟩]⟩

/-- The candle that message broadcasts. -/
def c9_candle : OHLCCandle :=
  ⟨"I", "1min", 1, 2, 3, 4, 10, 60000, "active", FeedExtras.none_⟩

/-- Empty candle-state map for the C9 witness. -/
def c9_st0 : CandleStateMap := fun _ _ => CandleSlot.init

/-- Witness for C9 at a concrete frame with one 1-minute candle. -/
theorem C9_broadcast_statuses_witness :
    (broadcast_ohlc_message c9_candle).candle_status = "active" :=
  ((C9_broadcast_statuses "I" (some c9_msg) none c9_st0).1 c9_candle (by decide)).1
    (by decide)

/-! ## Claim C2: the :latest pointer -/

/-- Trading-date function used by the C2 theorems: every timestamp of
the scenario falls on one trading date. -/
def c2_date : Int → String := fun _ => "2023-11-14"

/-- First live candle of the C2 counterexample, start-timestamp 2. -/
def c2_c1 : OHLCCandle := ⟨"I", "1min", 1, 2, 3, 4, 5, 2, "completed", FeedExtras.none_⟩

/-- Second live candle of the C2 counterexample, start-timestamp 1,
strictly older than c2_c1. -/
def c2_c2 : OHLCCandle := ⟨"I", "1min", 1, 2, 3, 4, 5, 1, "completed", FeedExtras.none_⟩

/-- The :latest key of that series. -/
def c2_lk : String := ohlc_latest_key "2023-11-14" "I" "1min"

/-- C2 counterexample: caching a live candle with start-timestamp 2 and
then one with start-timestamp 1 through _cache_ohlc_candle leaves
:latest holding the timestamp-1 candle — the pointer was overwritten by
a strictly older candle, so it does not hold the maximal
start-timestamp ever observed (which is 2). -/
theorem C2_counterexample :
    ((cache_ohlc_candle c2_date RedisState.empty c2_c1).latest_strings c2_lk).map
        (fun j => j.timestamp) = some 2 ∧
    ((cache_ohlc_candle c2_date (cache_ohlc_candle c2_date RedisState.empty c2_c1)
        c2_c2).latest_strings c2_lk).map (fun j => j.timestamp) = some 1 ∧
    (1 : Int) < 2 := by
  refine ⟨by decide, by decide, by decide⟩

/-- C2 (amended): the conditional ":latest only advances" rule holds
for candles cached from the History API (_cache_ohlc_from_api): a
stored latest is left untouched unless the new start-timestamp is
strictly newer, and a missing latest is set.  For live candles,
_cache_ohlc_candle overwrites :latest unconditionally with the candle
just written, so there :latest holds the most recently written candle
rather than necessarily the one with maximal start-timestamp. -/
theorem C2_latest_update_semantics :
    (∀ (calc_td : Int → String) (r : RedisState) (candle : OHLCCandle),
      (cache_ohlc_candle calc_td r candle).latest_strings
          (ohlc_latest_key (calc_td candle.timestamp) candle.instrument_key candle.interval)
        = some (candle_to_json candle)) ∧
    (∀ (calc_td : Int → String) (r : RedisState) (ik iv : String)
      (cd : ApiCandle) (lj : CandleJson),
      cd.timestamp ≠ 0 →
      r.latest_strings (ohlc_latest_key (calc_td cd.timestamp) ik iv) = some lj →
      ¬ cd.timestamp > lj.timestamp →
      (cache_ohlc_from_api calc_td r ik iv cd).latest_strings
          (ohlc_latest_key (calc_td cd.timestamp) ik iv) = some lj) ∧
    (∀ (calc_td : Int → String) (r : RedisState) (ik iv : String) (cd : ApiCandle),
      cd.timestamp ≠ 0 →
      r.latest_strings (ohlc_latest_key (calc_td cd.timestamp) ik iv) = none →
      (cache_ohlc_from_api calc_td r ik iv cd).latest_strings
          (ohlc_latest_key (calc_td cd.timestamp) ik iv)
        = some (api_candle_to_json ik iv cd)) := by
  refine ⟨?_, ?_, ?_⟩
  · intro calc_td r candle
    simp [cache_ohlc_candle, upd]
  · intro calc_td r ik iv cd lj ht hl hnot
    simp [cache_ohlc_from_api, ht, hl, hnot, upd]
  · intro calc_td r ik iv cd ht hl
    simp [cache_ohlc_from_api, ht, hl, upd]

/-- API candle with start-timestamp 5 for the C2 amended witness. -/
def c2_cd : ApiCandle := ⟨5, 1, 2, 3, 4, 6⟩

/-- Cache state for the C2 amended witness: :latest already holds a
timestamp-5 candle for the series of c2_cd. -/
def c2_r5 : RedisState :=
  ⟨fun _ => [], fun _ => none,
   fun k => if k = ohlc_latest_key "2023-11-14" "I" "1min" then
      some (api_candle_to_json "I" "1min" c2_cd) else none⟩

/-- Witness for the amended C2 theorem: a live write overwrites
:latest, and an API write with an equal (not strictly newer)
start-timestamp leaves it untouched. -/
theorem C2_latest_update_witness :
    (cache_ohlc_candle c2_date RedisState.empty c2_c1).latest_strings c2_lk
        = some (candle_to_json c2_c1) ∧
    (cache_ohlc_from_api c2_date c2_r5 "I" "1min" c2_cd).latest_strings c2_lk
        = some (api_candle_to_json "I" "1min" c2_cd) :=
  ⟨C2_latest_update_semantics.1 c2_date RedisState.empty c2_c1,
   C2_latest_update_semantics.2.1 c2_date c2_r5 "I" "1min" c2_cd
     (api_candle_to_json "I" "1min" c2_cd) (by decide) (by decide) (by decide)⟩

/-! ## Claim C4: one ZSET member per start-timestamp -/

/-- Trading-date function used by the C4 theorem. -/
def c4_date : Int → String := fun _ => "2023-11-14"

/-- First write of the C4 failing input: 1-minute candle at
start-timestamp 1700000060000 with close 25010. -/
def c4_c1 : OHLCCandle :=
  ⟨"I", "1min", 25005, 25010, 25000, 25010, 100, 1700000060000, "completed",
   FeedExtras.none_⟩

/-- Second write: same start-timestamp, updated close 25018 — the same
logical candle, updated. -/
def c4_c2 : OHLCCandle :=
  ⟨"I", "1min", 25005, 25020, 25000, 25018, 150, 1700000060000, "completed",
   FeedExtras.none_⟩

/-- The series key of those writes. -/
def c4_zk : String := ohlc_zset_key "2023-11-14" "I" "1min"

/-- C4 evaluation at the failing input: ZADD keys the sorted set on the
serialised member, not on the score, so writing an updated candle with
the same start-timestamp leaves TWO members at that score (the
byte-identical duplicate from a redundant connector is the only case
collapsed to one member), contradicting the one-entry-per-timestamp
claim and the comments at lines 1253 and 881. -/
theorem C4_duplicate_timestamp_two_members :
    ((cache_ohlc_candle c4_date (cache_ohlc_candle c4_date RedisState.empty c4_c1)
        c4_c2).zsets c4_zk).map Prod.snd = [1700000060000, 1700000060000] ∧
    ((cache_ohlc_candle c4_date (cache_ohlc_candle c4_date RedisState.empty c4_c1)
        c4_c2).zsets c4_zk).length = 2 ∧
    ((cache_ohlc_candle c4_date (cache_ohlc_candle c4_date RedisState.empty c4_c1)
        c4_c1).zsets c4_zk).length = 1 ∧
    c4_c1.timestamp = c4_c2.timestamp := by
  refine ⟨by decide, by decide, by decide, by decide⟩

/-! ## Claim C3: a snapshot is always sent -/

/-- C3: on an OHLC history request the hydrator always produces a
snapshot — when the cache is non-empty, when the cache misses and the
API yields candles, and when both yield nothing (the History API's own
try/except already converts SDK failures into an empty list), in which
case the snapshot carries zero candles instead of being omitted. -/
theorem C3_snapshot_always_sent (calc_td : Int → String) (r : RedisState)
    (ik iv : String) (now_ms : Int)
    (api : Except String (Option (List RawApiRow))) :
    (fetch_and_send_historical calc_td r ik iv now_ms api).2.isSome = true ∧
    (get_cached_ohlc_candles calc_td r ik iv now_ms = [] →
      fetch_ohlc_from_api iv api = [] →
      (fetch_and_send_historical calc_td r ik iv now_ms api).2
        = some (mk_ohlc_snapshot ik iv [])) := by
  constructor
  · unfold fetch_and_send_historical
    dsimp only
    split
    · rfl
    · split
      · rfl
      · rfl
  · intro hcache hapi
    simp [fetch_and_send_historical, hcache, hapi]

/-- Trading-date function used by the C3 witness. -/
def c3_date : Int → String := fun _ => "2023-11-14"

/-- Witness for C3 at an empty cache and a failing History API call:
an empty snapshot is still produced. -/
theorem C3_snapshot_witness :
    (fetch_and_send_historical c3_date RedisState.empty "I" "1min" 0
        (Except.error "api down")).2 = some (mk_ohlc_snapshot "I" "1min" []) :=
  (C3_snapshot_always_sent c3_date RedisState.empty "I" "1min" 0
    (Except.error "api down")).2 rfl rfl

end AgniDataService
